import Mathlib

/-!
Verification of the location-sharing service (`src/app.py`).

The file shallow-embeds the three Flask route handlers of `app.py`
(`/view_location`, `/search`, `/grant_access`) as pure Lean functions over
an explicit state: the access-grant set, the directory of stored encrypted
files, and the current time.  The modules `access_manager`, `encrypt_utils`
and `cli_search` are imported by `app.py` but their sources are not part of
the repository snapshot; the definitions that stand in for them are marked
`Modelled from the spec:` and follow §4.1/§4.2 of the specification.
Randomness (`secrets.token_bytes` and the nonce drawn inside
`encrypt_with_key`) is made explicit as a byte-stream parameter.
-/

namespace Plqp

/-! ## Access grants (`access_manager`, modelled from the spec §4.1) -/

/-- One owner's authorization of one viewer (spec §3 `Grant`). -/
structure Grant where
  owner : String
  viewer : String
  grantedAt : Int
  expiresAt : Int
deriving DecidableEq

/-- Modelled from the spec: `access_manager.revoke_expired` is not under
`src/`; per §4.1 it removes every grant whose `expires_at <= now` from the
active set. -/
def revoke_expired (grants : List Grant) (now : Int) : List Grant :=
  grants.filter (fun g => decide (now < g.expiresAt))

/-- Modelled from the spec: `access_manager.is_access_allowed` is not under
`src/`; per §4.1 it returns true iff a grant exists for `(owner, viewer)`
with `expires_at > now` (strict comparison). -/
def is_access_allowed (grants : List Grant) (o v : String) (now : Int) : Bool :=
  grants.any (fun g => g.owner == o && g.viewer == v && decide (now < g.expiresAt))

/-- Modelled from the spec: `access_manager.grant_access` is not under
`src/`; per §4.1 it inserts or replaces the grant for `(owner, viewer)`
with `expires_at = now + duration_minutes` (last-write-wins) and returns
the created grant. -/
def grant_access (grants : List Grant) (o v : String) (d : Int) (now : Int) :
    Grant × List Grant :=
  let g : Grant := ⟨o, v, now, now + d⟩
  (g, grants.filter (fun x => !(x.owner == o && x.viewer == v)) ++ [g])

/-! ## Envelope cipher (`encrypt_utils`, modelled from the spec §4.2) -/

/-- Modelled from the spec: the key returned by `derive_kek` is a pure
function of `(passphrase, salt)` (§4.2); it is represented by that pair. -/
structure Kek where
  passphrase : String
  salt : List Nat
deriving DecidableEq

/-- Modelled from the spec: `encrypt_utils.derive_kek` is not under `src/`;
per §4.2 it is a deterministic KDF — same `(passphrase, salt)` always
yields the same key. -/
def derive_kek (p : String) (s : List Nat) : Kek := ⟨p, s⟩

/-- `secrets.token_bytes n` drawing from an explicit byte stream `rng`;
always returns exactly `n` bytes. -/
def tokenBytes (n : Nat) (rng : Nat → Nat) : List Nat :=
  (List.range n).map (fun i => rng i % 256)

/-- Keystream byte of the modelled AEAD cipher. -/
def keystream (k : Kek) (nonce : List Nat) (i : Nat) : Nat :=
  (k.passphrase.length + k.salt.foldl (· + ·) 0 + nonce.foldl (· + ·) 0 + 131 * i) % 256

/-- Ciphertext of the modelled AEAD cipher: same byte length as the
plaintext (spec §4.2). -/
def mkCt (k : Kek) (nonce pt : List Nat) : List Nat :=
  (List.range pt.length).zipWith (fun i b => (b + keystream k nonce i) % 256) pt

/-- Authentication tag of the modelled AEAD cipher: fixed 16 bytes over key,
nonce and plaintext (spec §4.2). -/
def mkTag (k : Kek) (nonce pt : List Nat) : List Nat :=
  (List.range 16).map (fun i => (keystream k nonce i + pt.foldl (· + ·) 0 + 7) % 256)

/-- Modelled from the spec: `encrypt_utils.encrypt_with_key` is not under
`src/`; per §4.2 it draws a fresh 12-byte nonce, produces a 16-byte tag and
a ciphertext of the plaintext's length, and `app.py` receives the
concatenation nonce‖tag‖ciphertext (base64-encoded there and immediately
undone by `b64decode`, so the base64 layer is elided and the raw bytes are
returned). -/
def encrypt_with_key (k : Kek) (rng : Nat → Nat) (pt : List Nat) : List Nat :=
  let nonce := tokenBytes 12 rng
  nonce ++ mkTag k nonce pt ++ mkCt k nonce pt

/-! ## Hex encoding (`bytes.hex()` in Python) -/

/-- Lowercase hexadecimal digit for `n < 16`. -/
def hexDigit (n : Nat) : Char :=
  if n < 10 then Char.ofNat (48 + n) else Char.ofNat (87 + n)

/-- The two hex characters of one byte. -/
def byteHexChars (b : Nat) : List Char :=
  [hexDigit (b % 256 / 16), hexDigit (b % 16)]

/-- `bytes.hex()`: lowercase hex encoding of a byte sequence. -/
def bytesHex (l : List Nat) : String :=
  ⟨(l.map byteHexChars).flatten⟩

/-! ## Payload shape and storage directory -/

/-- The `enc_data` record written by `/search` (`app.py` lines 121-126):
four independent hex fields. -/
structure EncData where
  salt_hex : String
  nonce_hex : String
  tag_hex : String
  ciphertext_hex : String
deriving DecidableEq

/-- One file of the backend directory as seen by the handlers: its name,
its modification time and its decoded `enc_data` content. -/
structure StoredFile where
  name : String
  mtime : Nat
  content : EncData
deriving DecidableEq

/-- Whether a file name matches the glob `places_output_*.enc.json`
(`app.py` line 69). -/
def matchesGlob (name : String) : Bool :=
  "places_output_".data.isPrefixOf name.data &&
    ".enc.json".data.reverse.isPrefixOf name.data.reverse &&
    decide (14 + 9 ≤ name.data.length)

/-- The file `view_location` opens: glob matches sorted ascending by mtime
(Python's stable sort), last element taken — i.e. the match with maximal
mtime, later directory entries winning ties (`app.py` lines 68-75). -/
def latestEnc (files : List StoredFile) : Option StoredFile :=
  (files.filter (fun f => matchesGlob f.name)).foldl
    (fun acc f =>
      match acc with
      | none => some f
      | some g => if g.mtime ≤ f.mtime then some f else some g)
    none

/-- Content of the named file, if present. -/
def findFile (files : List StoredFile) (name : String) : Option EncData :=
  (files.find? (fun f => f.name == name)).map (fun f => f.content)

/-- `open(filepath, "w")` + `json.dump`: replace the named file's content
(its mtime becoming `t`), creating it if absent. -/
def writeFile (files : List StoredFile) (name : String) (c : EncData) (t : Nat) :
    List StoredFile :=
  files.filter (fun f => !(f.name == name)) ++ [⟨name, t, c⟩]

/-! ## HTTP layer -/

/-- A JSON response body produced by one of the three handlers. -/
inductive Body where
  | error (msg : String)
  | encData (d : EncData)
  | granted (msg : String) (rule : Grant)
deriving DecidableEq

/-- An HTTP response: status code and JSON body. -/
structure Response where
  status : Nat
  body : Body
deriving DecidableEq

/-- Python truthiness of an optional string field: `not x` is true for an
absent field and for the empty string. -/
def strPresent : Option String → Bool
  | none => false
  | some s => !s.data.isEmpty

/-- Request body of `/view_location`. -/
structure ViewReq where
  owner : Option String
  viewer : Option String
deriving DecidableEq

/-- Request body of `/grant_access`; `duration_minutes` is the JSON number
if supplied. -/
structure GrantReq where
  owner : Option String
  viewer : Option String
  duration_minutes : Option Int
deriving DecidableEq

/-- Request body of `/search`; the coordinate values are only tested for
presence by the handler. -/
structure SearchReq where
  query : Option String
  lat : Option Int
  lon : Option Int
  owner : Option String
deriving DecidableEq

/-! ## The three route handlers of `app.py` -/

/-- The `/view_location` handler (`app.py` lines 47-87): validate fields,
`revoke_expired()`, `is_access_allowed(owner, viewer)`, then open the
newest `places_output_*.enc.json` by mtime and return its `enc_data`.
Returns the response together with the grant set after the handler's
`revoke_expired` side effect. -/
def view_location (grants : List Grant) (files : List StoredFile) (now : Int)
    (req : ViewReq) : Response × List Grant :=
  if !strPresent req.owner || !strPresent req.viewer then
    (⟨400, .error "Missing owner or viewer"⟩, grants)
  else
    let o := req.owner.getD ""
    let v := req.viewer.getD ""
    let grants' := revoke_expired grants now
    if !is_access_allowed grants' o v now then
      (⟨403, .error "Unauthorized access or access expired"⟩, grants')
    else
      match latestEnc files with
      | none => (⟨404, .error "No encrypted location data found"⟩, grants')
      | some f => (⟨200, .encData f.content⟩, grants')

/-- The filename `/search` writes: `places_output_{owner or 'user'}.enc.json`
(`app.py` line 129); Python's `or` takes the fallback for an absent owner
field and for the empty string. -/
def searchFilename (owner : Option String) : String :=
  "places_output_" ++
    (match owner with
     | none => "user"
     | some o => if o.data.isEmpty then "user" else o) ++ ".enc.json"

/-- The `enc_data` record `/search` builds (`app.py` lines 112-126): fresh
16-byte salt, KDF, AEAD encryption, split of the decoded token at byte
offsets 12 and 28, hex encoding of the four pieces. -/
def searchEncData (passphrase : String) (pt : List Nat)
    (saltRng nonceRng : Nat → Nat) : EncData :=
  let salt := tokenBytes 16 saltRng
  let key := derive_kek passphrase salt
  let raw := encrypt_with_key key nonceRng pt
  ⟨bytesHex salt, bytesHex (raw.take 12), bytesHex ((raw.drop 12).take 16),
    bytesHex (raw.drop 28)⟩

/-- The `/search` handler (`app.py` lines 91-139): `revoke_expired()`,
validate `query`/`lat`/`lon` (the owner field is not required), run the
search (its serialized UTF-8 JSON result is the parameter `pt`), encrypt,
persist under `places_output_{owner or 'user'}.enc.json` (mtime `mtime`),
and return the same `enc_data`.  Returns response, grant set and
directory state. -/
def search (passphrase : String) (grants : List Grant) (files : List StoredFile)
    (now : Int) (mtime : Nat) (req : SearchReq) (pt : List Nat)
    (saltRng nonceRng : Nat → Nat) :
    Response × List Grant × List StoredFile :=
  let grants' := revoke_expired grants now
  if !strPresent req.query || req.lat.isNone || req.lon.isNone then
    (⟨400, .error "Missing query or coordinates"⟩, grants', files)
  else
    let d := searchEncData passphrase pt saltRng nonceRng
    (⟨200, .encData d⟩, grants', writeFile files (searchFilename req.owner) d mtime)

/-- The `/grant_access` handler (`app.py` lines 143-162): read
`duration_minutes` with default 5, validate `owner`/`viewer`, then call
`access_manager.grant_access(owner, viewer, duration)` and return the
created rule.  Returns the response together with the grant set. -/
def grant_access_route (grants : List Grant) (now : Int) (req : GrantReq) :
    Response × List Grant :=
  let duration := req.duration_minutes.getD 5
  if !strPresent req.owner || !strPresent req.viewer then
    (⟨400, .error "Missing owner or viewer"⟩, grants)
  else
    let o := req.owner.getD ""
    let v := req.viewer.getD ""
    let r := grant_access grants o v duration now
    (⟨200, .granted "✅ Access granted" r.1⟩, r.2)

/-! ## Basic lemmas about the modelled components -/

/-- `tokenBytes` always returns exactly `n` bytes. -/
theorem length_tokenBytes (n : Nat) (rng : Nat → Nat) :
    (tokenBytes n rng).length = n := by
  simp [tokenBytes]

/-- The modelled tag has 16 bytes. -/
theorem length_mkTag (k : Kek) (nonce pt : List Nat) :
    (mkTag k nonce pt).length = 16 := by
  simp [mkTag]

/-- The modelled ciphertext has the plaintext's byte length. -/
theorem length_mkCt (k : Kek) (nonce pt : List Nat) :
    (mkCt k nonce pt).length = pt.length := by
  simp [mkCt]

/-- Bytes 0-12 of the decoded token are the nonce. -/
theorem encrypt_take_twelve (k : Kek) (rng : Nat → Nat) (pt : List Nat) :
    (encrypt_with_key k rng pt).take 12 = tokenBytes 12 rng := by
  rw [encrypt_with_key, List.append_assoc]
  rw [List.take_append_of_le_length (by simp [length_tokenBytes])]
  exact List.take_of_length_le (by simp [length_tokenBytes])

/-- Bytes 12-28 of the decoded token are the tag. -/
theorem encrypt_middle_sixteen (k : Kek) (rng : Nat → Nat) (pt : List Nat) :
    ((encrypt_with_key k rng pt).drop 12).take 16
      = mkTag k (tokenBytes 12 rng) pt := by
  rw [encrypt_with_key, List.append_assoc]
  rw [List.drop_append_of_le_length (by simp [length_tokenBytes])]
  rw [List.drop_of_length_le (by simp [length_tokenBytes]), List.nil_append]
  rw [List.take_append_of_le_length (by simp [length_mkTag])]
  exact List.take_of_length_le (by simp [length_mkTag])

/-- Bytes 28.. of the decoded token are the ciphertext. -/
theorem encrypt_drop_twentyeight (k : Kek) (rng : Nat → Nat) (pt : List Nat) :
    (encrypt_with_key k rng pt).drop 28 = mkCt k (tokenBytes 12 rng) pt := by
  rw [encrypt_with_key]
  have h28 : (tokenBytes 12 rng ++ mkTag k (tokenBytes 12 rng) pt).length = 28 := by
    rw [List.length_append, length_tokenBytes, length_mkTag]
  rw [← h28, List.drop_left]

/-- Hex encoding yields two characters per byte. -/
theorem length_bytesHex (l : List Nat) : (bytesHex l).length = 2 * l.length := by
  show ((l.map byteHexChars).flatten).length = 2 * l.length
  induction l with
  | nil => rfl
  | cons b t ih =>
    simp only [List.map_cons, List.flatten_cons, List.length_append, ih,
      byteHexChars, List.length_cons, List.length_nil, List.length_map]
    omega

/-- `is_access_allowed` is false when every grant for the pair has expired
(or no grant for the pair exists at all). -/
theorem is_access_allowed_eq_false (grants : List Grant) (o v : String) (now : Int)
    (h : ∀ g ∈ grants, g.owner = o → g.viewer = v → g.expiresAt ≤ now) :
    is_access_allowed grants o v now = false := by
  rw [is_access_allowed, List.any_eq_false]
  intro g hg
  simp only [Bool.and_eq_true, beq_iff_eq, decide_eq_true_eq, not_and]
  intro h1
  exact not_lt.2 (h g hg h1.1 h1.2)

/-! ## Claim theorems: the `/view_location` handler -/

/-- C1: for every `/view_location` request with non-empty owner and viewer
the handler runs `revoke_expired()` and then queries `is_access_allowed`
on the swept grant set; when the query answers false it responds with the
403 authorization-denial error (and the swept grant set), the response is
independent of the stored encrypted files (no encrypted file is read), and
no encrypted payload body is ever released on that path. -/
theorem view_location_auth_gate (grants : List Grant) (files : List StoredFile)
    (now : Int) (o v : String) (ho : strPresent (some o) = true)
    (hv : strPresent (some v) = true)
    (hden : is_access_allowed (revoke_expired grants now) o v now = false) :
    view_location grants files now ⟨some o, some v⟩
        = (⟨403, .error "Unauthorized access or access expired"⟩,
           revoke_expired grants now)
      ∧ (∀ files' : List StoredFile,
          view_location grants files' now ⟨some o, some v⟩
            = view_location grants files now ⟨some o, some v⟩)
      ∧ (∀ d : EncData,
          (view_location grants files now ⟨some o, some v⟩).1.body
            ≠ Body.encData d) := by
  refine ⟨?_, ?_, ?_⟩ <;> simp [view_location, ho, hv, hden]

/-- Witness for C1 at a concrete unauthorized request. -/
theorem view_location_auth_gate_witness :
    view_location [] [] 0 ⟨some "alice", some "bob"⟩
      = (⟨403, .error "Unauthorized access or access expired"⟩, []) :=
  (view_location_auth_gate [] [] 0 "alice" "bob" (by decide) (by decide)
    (by decide)).1

/-- C2 (code bug): with a live grant (alice, carol) and two stored files —
alice's payload at mtime 1 and bob's newer payload at mtime 2 — the
authorized viewer carol requesting alice's location receives bob's payload,
which differs from alice's most recent payload: the handler picks the
newest `places_output_*.enc.json` by mtime regardless of owner,
contradicting its own docstring. -/
theorem view_location_returns_other_owners_file :
    (view_location [⟨"alice", "carol", 0, 100⟩]
        [⟨"places_output_alice.enc.json", 1, ⟨"aa", "bb", "cc", "dd"⟩⟩,
         ⟨"places_output_bob.enc.json", 2, ⟨"ee", "ff", "11", "22"⟩⟩]
        1 ⟨some "alice", some "carol"⟩).1
      = ⟨200, .encData ⟨"ee", "ff", "11", "22"⟩⟩
    ∧ (⟨"ee", "ff", "11", "22"⟩ : EncData) ≠ ⟨"aa", "bb", "cc", "dd"⟩ := by
  decide

/-- C6: an unauthorized `/view_location` request where the named owner has
no grants at all and one where a grant for the pair exists but has expired
produce identical responses — the 403 denial with the same error body —
regardless of the stored files, so the response does not reveal which
owners exist. -/
theorem view_location_no_owner_enumeration
    (grants1 grants2 : List Grant) (files1 files2 : List StoredFile)
    (now1 now2 : Int) (o1 v1 o2 v2 : String)
    (ho1 : strPresent (some o1) = true) (hv1 : strPresent (some v1) = true)
    (ho2 : strPresent (some o2) = true) (hv2 : strPresent (some v2) = true)
    (hunknown : ∀ g ∈ grants1, g.owner ≠ o1)
    (hexpired : ∃ g ∈ grants2, g.owner = o2 ∧ g.viewer = v2 ∧ g.expiresAt ≤ now2)
    (hallexpired : ∀ g ∈ grants2, g.owner = o2 → g.viewer = v2 → g.expiresAt ≤ now2) :
    (view_location grants1 files1 now1 ⟨some o1, some v1⟩).1
        = (view_location grants2 files2 now2 ⟨some o2, some v2⟩).1
      ∧ (view_location grants1 files1 now1 ⟨some o1, some v1⟩).1
        = ⟨403, .error "Unauthorized access or access expired"⟩ := by
  have h1 : is_access_allowed (revoke_expired grants1 now1) o1 v1 now1 = false := by
    refine is_access_allowed_eq_false _ _ _ _ (fun g hg heq _ => ?_)
    exact ((hunknown g (List.mem_filter.1 hg).1) heq).elim
  have h2 : is_access_allowed (revoke_expired grants2 now2) o2 v2 now2 = false := by
    refine is_access_allowed_eq_false _ _ _ _ (fun g hg heq1 heq2 => ?_)
    exact hallexpired g (List.mem_filter.1 hg).1 heq1 heq2
  constructor
  · simp [view_location, ho1, hv1, ho2, hv2, h1, h2]
  · simp [view_location, ho1, hv1, h1]

/-- Witness for C6: unknown owner "zoe" versus an expired grant for
(alice, bob). -/
theorem view_location_no_owner_enumeration_witness :
    (view_location [] [] 0 ⟨some "zoe", some "bob"⟩).1
        = (view_location [⟨"alice", "bob", 0, 5⟩] [] 5 ⟨some "alice", some "bob"⟩).1
      ∧ (view_location [] [] 0 ⟨some "zoe", some "bob"⟩).1
        = ⟨403, .error "Unauthorized access or access expired"⟩ :=
  view_location_no_owner_enumeration [] [⟨"alice", "bob", 0, 5⟩] [] [] 0 5
    "zoe" "bob" "alice" "bob" (by decide) (by decide) (by decide) (by decide)
    (by decide) (by decide) (by decide)

/-- C9: for a request with non-empty owner and viewer that passes the
authorization check on the swept grant set but finds no stored encrypted
file, the handler answers 404 "No encrypted location data found"; when the
authorization check fails, the handler answers the 403 denial and never the
404, so an unauthorized viewer cannot observe the 404 branch. -/
theorem view_location_missing_data (grants : List Grant) (files : List StoredFile)
    (now : Int) (o v : String) (ho : strPresent (some o) = true)
    (hv : strPresent (some v) = true) :
    (is_access_allowed (revoke_expired grants now) o v now = true →
      latestEnc files = none →
      (view_location grants files now ⟨some o, some v⟩).1
        = ⟨404, .error "No encrypted location data found"⟩)
    ∧ (is_access_allowed (revoke_expired grants now) o v now = false →
      (view_location grants files now ⟨some o, some v⟩).1
          = ⟨403, .error "Unauthorized access or access expired"⟩
        ∧ (view_location grants files now ⟨some o, some v⟩).1.status ≠ 404) := by
  constructor
  · intro hok hnone
    simp [view_location, ho, hv, hok, hnone]
  · intro hden
    refine ⟨?_, ?_⟩ <;> simp [view_location, ho, hv, hden]

/-- Witness for C9: both branches at concrete states — an authorized pair
with an empty directory, and a denied pair. -/
theorem view_location_missing_data_witness :
    (view_location [⟨"alice", "bob", 0, 5⟩] [] 0 ⟨some "alice", some "bob"⟩).1
        = ⟨404, .error "No encrypted location data found"⟩
      ∧ (view_location [] [] 0 ⟨some "alice", some "bob"⟩).1
        = ⟨403, .error "Unauthorized access or access expired"⟩ :=
  ⟨(view_location_missing_data [⟨"alice", "bob", 0, 5⟩] [] 0 "alice" "bob"
      (by decide) (by decide)).1 (by decide) (by decide),
   ((view_location_missing_data [] [] 0 "alice" "bob"
      (by decide) (by decide)).2 (by decide)).1⟩

/-! ## Storage lemmas -/

/-- Writing a file stores its content under its name. -/
theorem findFile_writeFile_self (files : List StoredFile) (n : String)
    (c : EncData) (t : Nat) :
    findFile (writeFile files n c t) n = some c := by
  induction files with
  | nil => simp [findFile, writeFile]
  | cons f fs ih =>
    by_cases hf : f.name = n
    · simpa [findFile, writeFile, List.filter_cons, hf] using ih
    · simpa [findFile, writeFile, List.filter_cons, hf] using ih

/-- Writing a file leaves every other file name's content unchanged. -/
theorem findFile_writeFile_other (files : List StoredFile) (n m : String)
    (c : EncData) (t : Nat) (h : m ≠ n) :
    findFile (writeFile files n c t) m = findFile files m := by
  unfold findFile writeFile
  congr 1
  induction files with
  | nil => simp; exact fun hc => h hc.symm
  | cons f fs ih =>
    rw [List.filter_cons]
    by_cases hf : f.name = n
    · have hfm : ¬ f.name = m := fun hc => h (hc ▸ hf)
      rw [if_neg (by simp [hf])]
      simpa [List.find?_cons, beq_iff_eq, hfm] using ih
    · rw [if_pos (by simp [hf])]
      by_cases hm : f.name = m
      · simp [List.find?_cons, hm]
      · simpa [List.find?_cons, beq_iff_eq, hm] using ih

/-! ## Claim theorems: the `/search` handler -/

/-- C3: every successful `/search` encryption uses a freshly generated
16-byte salt; the bytes encoded in `nonce_hex` are the decoded token's
bytes 0-12 (12 bytes), the bytes encoded in `tag_hex` are its bytes 12-28
(16 bytes), and the ciphertext has the same byte length as the UTF-8
encoded JSON plaintext `pt`. -/
theorem search_payload_sizes (passphrase : String) (grants : List Grant)
    (files : List StoredFile) (now : Int) (mtime : Nat) (req : SearchReq)
    (pt : List Nat) (saltRng nonceRng : Nat → Nat)
    (hq : strPresent req.query = true) (hlat : req.lat.isNone = false)
    (hlon : req.lon.isNone = false) :
    ∃ salt nonce tag ct : List Nat,
      (search passphrase grants files now mtime req pt saltRng nonceRng).1
          = ⟨200, .encData ⟨bytesHex salt, bytesHex nonce, bytesHex tag, bytesHex ct⟩⟩
        ∧ salt = tokenBytes 16 saltRng ∧ salt.length = 16
        ∧ nonce = (encrypt_with_key (derive_kek passphrase salt) nonceRng pt).take 12
        ∧ nonce.length = 12
        ∧ tag = ((encrypt_with_key (derive_kek passphrase salt) nonceRng pt).drop 12).take 16
        ∧ tag.length = 16
        ∧ ct = (encrypt_with_key (derive_kek passphrase salt) nonceRng pt).drop 28
        ∧ ct.length = pt.length := by
  refine ⟨tokenBytes 16 saltRng,
    (encrypt_with_key (derive_kek passphrase (tokenBytes 16 saltRng)) nonceRng pt).take 12,
    ((encrypt_with_key (derive_kek passphrase (tokenBytes 16 saltRng)) nonceRng pt).drop 12).take 16,
    (encrypt_with_key (derive_kek passphrase (tokenBytes 16 saltRng)) nonceRng pt).drop 28,
    ?_, rfl, length_tokenBytes 16 saltRng, rfl, ?_, rfl, ?_, rfl, ?_⟩
  · simp [search, searchEncData, hq, hlat, hlon]
  · rw [encrypt_take_twelve]; exact length_tokenBytes 12 nonceRng
  · rw [encrypt_middle_sixteen]; exact length_mkTag _ _ _
  · rw [encrypt_drop_twentyeight]; exact length_mkCt _ _ _

/-- Witness for C3 at a concrete request. -/
theorem search_payload_sizes_witness :
    ∃ salt nonce tag ct : List Nat,
      (search "mySecret123" [] [] 0 1 ⟨some "cafe", some 1, some 2, some "alice"⟩
          [123, 125] (fun i => i) (fun i => i + 1)).1
          = ⟨200, .encData ⟨bytesHex salt, bytesHex nonce, bytesHex tag, bytesHex ct⟩⟩
        ∧ salt = tokenBytes 16 (fun i => i) ∧ salt.length = 16
        ∧ nonce = (encrypt_with_key (derive_kek "mySecret123" salt) (fun i => i + 1) [123, 125]).take 12
        ∧ nonce.length = 12
        ∧ tag = ((encrypt_with_key (derive_kek "mySecret123" salt) (fun i => i + 1) [123, 125]).drop 12).take 16
        ∧ tag.length = 16
        ∧ ct = (encrypt_with_key (derive_kek "mySecret123" salt) (fun i => i + 1) [123, 125]).drop 28
        ∧ ct.length = [123, 125].length :=
  search_payload_sizes "mySecret123" [] [] 0 1 ⟨some "cafe", some 1, some 2, some "alice"⟩
    [123, 125] (fun i => i) (fun i => i + 1) (by decide) (by decide) (by decide)

/-- C4: a successful `/search` returns `{"enc_data": d}` and persists the
same record `d` under the owner-keyed filename, where `d` consists of
exactly the four independent fields `salt_hex`, `nonce_hex`, `tag_hex`,
`ciphertext_hex`, each the hex encoding of the respective byte sequence —
not one concatenated opaque blob. -/
theorem search_structured_payload (passphrase : String) (grants : List Grant)
    (files : List StoredFile) (now : Int) (mtime : Nat) (req : SearchReq)
    (pt : List Nat) (saltRng nonceRng : Nat → Nat)
    (hq : strPresent req.query = true) (hlat : req.lat.isNone = false)
    (hlon : req.lon.isNone = false) :
    ∃ d : EncData,
      (search passphrase grants files now mtime req pt saltRng nonceRng).1
          = ⟨200, .encData d⟩
        ∧ findFile (search passphrase grants files now mtime req pt saltRng nonceRng).2.2
            (searchFilename req.owner) = some d
        ∧ d = ⟨bytesHex (tokenBytes 16 saltRng),
            bytesHex ((encrypt_with_key (derive_kek passphrase (tokenBytes 16 saltRng)) nonceRng pt).take 12),
            bytesHex (((encrypt_with_key (derive_kek passphrase (tokenBytes 16 saltRng)) nonceRng pt).drop 12).take 16),
            bytesHex ((encrypt_with_key (derive_kek passphrase (tokenBytes 16 saltRng)) nonceRng pt).drop 28)⟩ := by
  refine ⟨searchEncData passphrase pt saltRng nonceRng, ?_, ?_, rfl⟩
  · simp [search, hq, hlat, hlon]
  · have hstate :
        (search passphrase grants files now mtime req pt saltRng nonceRng).2.2
          = writeFile files (searchFilename req.owner)
              (searchEncData passphrase pt saltRng nonceRng) mtime := by
      simp [search, hq, hlat, hlon]
    rw [hstate, findFile_writeFile_self]

/-- Witness for C4 at a concrete request. -/
theorem search_structured_payload_witness :
    ∃ d : EncData,
      (search "mySecret123" [] [] 0 1 ⟨some "cafe", some 1, some 2, some "alice"⟩
          [123, 125] (fun i => i) (fun i => i + 1)).1
          = ⟨200, .encData d⟩
        ∧ findFile (search "mySecret123" [] [] 0 1 ⟨some "cafe", some 1, some 2, some "alice"⟩
            [123, 125] (fun i => i) (fun i => i + 1)).2.2
            (searchFilename (some "alice")) = some d
        ∧ d = ⟨bytesHex (tokenBytes 16 (fun i => i)),
            bytesHex ((encrypt_with_key (derive_kek "mySecret123" (tokenBytes 16 (fun i => i))) (fun i => i + 1) [123, 125]).take 12),
            bytesHex (((encrypt_with_key (derive_kek "mySecret123" (tokenBytes 16 (fun i => i))) (fun i => i + 1) [123, 125]).drop 12).take 16),
            bytesHex ((encrypt_with_key (derive_kek "mySecret123" (tokenBytes 16 (fun i => i))) (fun i => i + 1) [123, 125]).drop 28)⟩ :=
  search_structured_payload "mySecret123" [] [] 0 1
    ⟨some "cafe", some 1, some 2, some "alice"⟩ [123, 125] (fun i => i)
    (fun i => i + 1) (by decide) (by decide) (by decide)

/-- C7: a successful `/search` with a non-empty owner writes exactly the
one file `places_output_{owner}.enc.json` — the directory afterwards is
the old directory with that single name overwritten — so that name now
holds the new payload and every other name's content is unchanged. -/
theorem search_frame (passphrase : String) (grants : List Grant)
    (files : List StoredFile) (now : Int) (mtime : Nat) (pt : List Nat)
    (saltRng nonceRng : Nat → Nat) (q o : String) (lat lon : Int)
    (hq : strPresent (some q) = true) (ho : strPresent (some o) = true) :
    (search passphrase grants files now mtime ⟨some q, some lat, some lon, some o⟩
          pt saltRng nonceRng).2.2
        = writeFile files ("places_output_" ++ o ++ ".enc.json")
            (searchEncData passphrase pt saltRng nonceRng) mtime
      ∧ findFile (search passphrase grants files now mtime
            ⟨some q, some lat, some lon, some o⟩ pt saltRng nonceRng).2.2
          ("places_output_" ++ o ++ ".enc.json")
        = some (searchEncData passphrase pt saltRng nonceRng)
      ∧ ∀ m : String, m ≠ "places_output_" ++ o ++ ".enc.json" →
          findFile (search passphrase grants files now mtime
              ⟨some q, some lat, some lon, some o⟩ pt saltRng nonceRng).2.2 m
            = findFile files m := by
  have hname : searchFilename (some o)
      = "places_output_" ++ o ++ ".enc.json" := by
    simp only [strPresent, Bool.not_eq_true'] at ho
    simp [searchFilename, ho]
  have hstate :
      (search passphrase grants files now mtime ⟨some q, some lat, some lon, some o⟩
          pt saltRng nonceRng).2.2
        = writeFile files ("places_output_" ++ o ++ ".enc.json")
            (searchEncData passphrase pt saltRng nonceRng) mtime := by
    rw [← hname]
    simp [search, hq]
  refine ⟨hstate, ?_, ?_⟩
  · rw [hstate, findFile_writeFile_self]
  · intro m hm
    rw [hstate, findFile_writeFile_other _ _ _ _ _ hm]

/-- Witness for C7 at a concrete request. -/
theorem search_frame_witness :
    (search "mySecret123" [] [] 0 1 ⟨some "cafe", some 1, some 2, some "alice"⟩
          [123] (fun i => i) (fun i => i)).2.2
        = writeFile [] ("places_output_" ++ "alice" ++ ".enc.json")
            (searchEncData "mySecret123" [123] (fun i => i) (fun i => i)) 1
      ∧ findFile (search "mySecret123" [] [] 0 1
            ⟨some "cafe", some 1, some 2, some "alice"⟩ [123] (fun i => i)
            (fun i => i)).2.2 ("places_output_" ++ "alice" ++ ".enc.json")
        = some (searchEncData "mySecret123" [123] (fun i => i) (fun i => i))
      ∧ ∀ m : String, m ≠ "places_output_" ++ "alice" ++ ".enc.json" →
          findFile (search "mySecret123" [] [] 0 1
              ⟨some "cafe", some 1, some 2, some "alice"⟩ [123] (fun i => i)
              (fun i => i)).2.2 m
            = findFile [] m :=
  search_frame "mySecret123" [] [] 0 1 [123] (fun i => i) (fun i => i)
    "cafe" "alice" 1 2 (by decide) (by decide)

/-- C10: a `/search` request that omits the owner field is accepted (only
`query`, `lat`, `lon` are required) and its payload is persisted under the
fixed fallback name `places_output_user.enc.json`; a second owner-less
request then overwrites the first caller's payload under that same name. -/
theorem search_fallback_owner (passphrase : String) (grants : List Grant)
    (files : List StoredFile) (now : Int) (mtime : Nat) (pt : List Nat)
    (saltRng nonceRng : Nat → Nat) (q : String) (lat lon : Int)
    (hq : strPresent (some q) = true) :
    (search passphrase grants files now mtime ⟨some q, some lat, some lon, none⟩
          pt saltRng nonceRng).1.status = 200
      ∧ (search passphrase grants files now mtime ⟨some q, some lat, some lon, none⟩
            pt saltRng nonceRng).2.2
        = writeFile files "places_output_user.enc.json"
            (searchEncData passphrase pt saltRng nonceRng) mtime
      ∧ findFile (search passphrase grants files now mtime
            ⟨some q, some lat, some lon, none⟩ pt saltRng nonceRng).2.2
          "places_output_user.enc.json"
        = some (searchEncData passphrase pt saltRng nonceRng)
      ∧ ∀ (grants2 : List Grant) (now2 : Int) (mtime2 : Nat) (pt2 : List Nat)
          (saltRng2 nonceRng2 : Nat → Nat) (q2 : String) (lat2 lon2 : Int),
          strPresent (some q2) = true →
          findFile (search passphrase grants2
              (search passphrase grants files now mtime
                ⟨some q, some lat, some lon, none⟩ pt saltRng nonceRng).2.2
              now2 mtime2 ⟨some q2, some lat2, some lon2, none⟩ pt2
              saltRng2 nonceRng2).2.2 "places_output_user.enc.json"
            = some (searchEncData passphrase pt2 saltRng2 nonceRng2) := by
  have hstate : ∀ (gs : List Grant) (fl : List StoredFile) (nw : Int) (mt : Nat)
      (p : List Nat) (sr nr : Nat → Nat) (qq : String) (la lo : Int),
      strPresent (some qq) = true →
      (search passphrase gs fl nw mt ⟨some qq, some la, some lo, none⟩ p sr nr).2.2
        = writeFile fl "places_output_user.enc.json"
            (searchEncData passphrase p sr nr) mt := by
    intro gs fl nw mt p sr nr qq la lo hqq
    simp [search, hqq, searchFilename]
  refine ⟨?_, hstate grants files now mtime pt saltRng nonceRng q lat lon hq, ?_, ?_⟩
  · simp [search, hq]
  · rw [hstate grants files now mtime pt saltRng nonceRng q lat lon hq,
      findFile_writeFile_self]
  · intro gs2 nw2 mt2 p2 sr2 nr2 q2 la2 lo2 hq2
    rw [hstate gs2 _ nw2 mt2 p2 sr2 nr2 q2 la2 lo2 hq2, findFile_writeFile_self]

/-- Witness for C10 at concrete requests. -/
theorem search_fallback_owner_witness :
    (search "mySecret123" [] [] 0 1 ⟨some "cafe", some 1, some 2, none⟩
          [123] (fun i => i) (fun i => i)).1.status = 200
      ∧ (search "mySecret123" [] [] 0 1 ⟨some "cafe", some 1, some 2, none⟩
            [123] (fun i => i) (fun i => i)).2.2
        = writeFile [] "places_output_user.enc.json"
            (searchEncData "mySecret123" [123] (fun i => i) (fun i => i)) 1
      ∧ findFile (search "mySecret123" [] [] 0 1
            ⟨some "cafe", some 1, some 2, none⟩ [123] (fun i => i)
            (fun i => i)).2.2 "places_output_user.enc.json"
        = some (searchEncData "mySecret123" [123] (fun i => i) (fun i => i))
      ∧ ∀ (grants2 : List Grant) (now2 : Int) (mtime2 : Nat) (pt2 : List Nat)
          (saltRng2 nonceRng2 : Nat → Nat) (q2 : String) (lat2 lon2 : Int),
          strPresent (some q2) = true →
          findFile (search "mySecret123" grants2
              (search "mySecret123" [] [] 0 1 ⟨some "cafe", some 1, some 2, none⟩
                [123] (fun i => i) (fun i => i)).2.2
              now2 mtime2 ⟨some q2, some lat2, some lon2, none⟩ pt2
              saltRng2 nonceRng2).2.2 "places_output_user.enc.json"
            = some (searchEncData "mySecret123" pt2 saltRng2 nonceRng2) :=
  search_fallback_owner "mySecret123" [] [] 0 1 [123] (fun i => i) (fun i => i)
    "cafe" 1 2 (by decide)

/-! ## Claim theorems: the `/grant_access` handler -/

/-- C5 counterexample: the request (owner "a", viewer "b",
duration_minutes -5) has a non-positive duration yet is answered 200 with
the created rule, and `grant_access` has been invoked — the grant
(a, b, granted 0, expires -5) is now in the store — so the claim's
rejection of non-positive durations does not happen. -/
theorem grant_access_route_accepts_nonpositive_duration :
    grant_access_route [] 0 ⟨some "a", some "b", some (-5)⟩
        = (⟨200, .granted "✅ Access granted" ⟨"a", "b", 0, -5⟩⟩,
           [⟨"a", "b", 0, -5⟩])
      ∧ (grant_access_route [] 0 ⟨some "a", some "b", some (-5)⟩).1.status ≠ 400 := by
  decide

/-- C5 as amended: every `/grant_access` request with a missing or empty
owner or viewer identifier is rejected with the 400 error before
`access_manager.grant_access` is invoked (the grant store is untouched);
the handler performs no validation of `duration_minutes`. -/
theorem grant_access_route_validates_identifiers (grants : List Grant)
    (now : Int) (req : GrantReq)
    (h : strPresent req.owner = false ∨ strPresent req.viewer = false) :
    grant_access_route grants now req
      = (⟨400, .error "Missing owner or viewer"⟩, grants) := by
  rcases h with h | h <;> simp [grant_access_route, h]

/-- Witness for the amended C5 at a concrete request. -/
theorem grant_access_route_validates_identifiers_witness :
    grant_access_route [] 0 ⟨none, some "b", some 3⟩
      = (⟨400, .error "Missing owner or viewer"⟩, []) :=
  grant_access_route_validates_identifiers [] 0 ⟨none, some "b", some 3⟩
    (Or.inl (by decide))

/-- C8: a `/grant_access` request that omits `duration_minutes` has the
default of 5 minutes applied in the route handler, so
`access_manager.grant_access` receives the explicit duration 5 and the
handler returns exactly its result. -/
theorem grant_access_default_duration (grants : List Grant) (now : Int)
    (o v : String) (ho : strPresent (some o) = true)
    (hv : strPresent (some v) = true) :
    grant_access_route grants now ⟨some o, some v, none⟩
      = (⟨200, .granted "✅ Access granted" (grant_access grants o v 5 now).1⟩,
         (grant_access grants o v 5 now).2) := by
  simp [grant_access_route, ho, hv]

/-- Witness for C8 at a concrete request. -/
theorem grant_access_default_duration_witness :
    grant_access_route [] 0 ⟨some "alice", some "bob", none⟩
      = (⟨200, .granted "✅ Access granted" (grant_access [] "alice" "bob" 5 0).1⟩,
         (grant_access [] "alice" "bob" 5 0).2) :=
  grant_access_default_duration [] 0 "alice" "bob" (by decide) (by decide)

end Plqp
